import Mathlib

/-!
Formal model of the IMGSRV capture/analysis/sequence pipeline.

Each definition below is a shallow embedding of a function of the Python
sources, translated clause by clause:

  - road surface analysis and road-status derivation
    (src/services/snow_analytics.py),
  - the capture loop backoff policy and the sequence-update check
    (src/services/sequence_service.py),
  - configuration validation and update (src/services/config_manager.py),
  - the recent-image query (src/services/storage.py),
  - sequence assembly and the overlay renderers
    (src/services/image_processor.py, src/services/analytics_overlay.py).

Machine reals of the sources are modelled as rationals; places where the
source code may raise an exception are modelled with Except, and the
outcome of an external effect (a cv2 call, a file write, a render) enters
the corresponding function as an explicit Except or Bool argument.
-/

/-! Surface analysis, from RoadSurfaceAnalyzer.analyze_road_surface.

A pixel of the analyzed frame carries its HSV components, its grayscale
value, and the bit of the binary road mask at its position (the image and
the mask have the same shape, so the frame is modelled as one list of
mask-annotated pixels). -/

structure MaskedPixel where
  h : ℕ
  s : ℕ
  v : ℕ
  gray : ℕ
  road : Bool
deriving DecidableEq

/-- Models cv2.bitwise_and(hsv, hsv, mask=road_mask): pixels outside the
mask become (0, 0, 0). -/
def masked_hsv (p : MaskedPixel) : ℕ × ℕ × ℕ :=
  if p.road then (p.h, p.s, p.v) else (0, 0, 0)

/-- Models cv2.inRange: componentwise containment between the bounds. -/
def in_range (lo hi : ℕ × ℕ × ℕ) (x : ℕ × ℕ × ℕ) : Bool :=
  decide (lo.1 ≤ x.1 ∧ x.1 ≤ hi.1) &&
  decide (lo.2.1 ≤ x.2.1 ∧ x.2.1 ≤ hi.2.1) &&
  decide (lo.2.2 ≤ x.2.2 ∧ x.2.2 ≤ hi.2.2)

def lower_snow : ℕ × ℕ × ℕ := (0, 0, 200)

def upper_snow : ℕ × ℕ × ℕ := (180, 30, 255)

def lower_wet : ℕ × ℕ × ℕ := (0, 20, 40)

def upper_wet : ℕ × ℕ × ℕ := (180, 100, 150)

def lower_ice : ℕ × ℕ × ℕ := (0, 0, 180)

def upper_ice : ℕ × ℕ × ℕ := (180, 15, 220)

/-- Models np.sum(road_mask > 0). -/
def road_pixels (img : List MaskedPixel) : ℕ :=
  (img.filter (fun p => p.road)).length

/-- Models np.sum(cv2.inRange(masked_hsv, lo, hi) > 0): pixels of the
masked image whose HSV value lies between the bounds. -/
def count_in_range (lo hi : ℕ × ℕ × ℕ) (img : List MaskedPixel) : ℕ :=
  (img.filter (fun p => in_range lo hi (masked_hsv p))).length

/-- Coverage fraction with the divide-by-zero guard of the source:
class pixel count over road pixel count when the mask is nonempty,
otherwise 0.0. -/
def coverage (class_pixels road_pixel_count : ℕ) : ℚ :=
  if 0 < road_pixel_count then (class_pixels : ℚ) / road_pixel_count else 0

/-- Models np.mean(gray[road_mask > 0]) if np.any(road_mask) else 0. -/
def mean_road_brightness (img : List MaskedPixel) : ℚ :=
  if 0 < road_pixels img then
    ((img.filter (fun p => p.road)).map (fun p => (p.gray : ℚ))).sum / road_pixels img
  else 0

/-- Models the Python builtin round(x, ndigits). Python rounds halves to
even while this model rounds halves up; the two agree away from exact
midpoints and both stay within every interval bound used below. -/
def py_round (x : ℚ) (ndigits : ℕ) : ℚ :=
  ((round (x * 10 ^ ndigits) : ℤ) : ℚ) / 10 ^ ndigits

/-- Result dictionary of RoadSurfaceAnalyzer.analyze_road_surface. -/
structure SurfaceResult where
  snow_coverage : ℚ
  wet_coverage : ℚ
  ice_coverage : ℚ
  road_brightness : ℚ
  road_pixels : ℕ
  snow_pixels : ℕ
  wet_pixels : ℕ
  ice_pixels : ℕ
  surface_condition : String
  confidence : ℚ
  err : Option String
deriving DecidableEq

/-- RoadSurfaceAnalyzer._classify_surface_condition, clause for clause. -/
def classify_surface_condition (snow wet ice brightness : ℚ) : String :=
  if snow > 0.7 then "snow_covered"
  else if snow > 0.4 then "partial_snow"
  else if ice > 0.3 then "icy"
  else if wet > 0.5 then "wet"
  else if wet > 0.2 then "damp"
  else if brightness > 150 then "clean_dry"
  else "dry"

/-- Body of the try block of RoadSurfaceAnalyzer.analyze_road_surface:
masking, per-class pixel counting, guarded coverage fractions, brightness,
classification, and the confidence formula of line 322 of the source
(which uses the unrounded coverages; the dictionary stores coverages
rounded to three digits). -/
def analyze_road_surface_body (img : List MaskedPixel) : SurfaceResult :=
  let rp := road_pixels img
  let sp := count_in_range lower_snow upper_snow img
  let wp := count_in_range lower_wet upper_wet img
  let ip := count_in_range lower_ice upper_ice img
  let snow := coverage sp rp
  let wet := coverage wp rp
  let ice := coverage ip rp
  let brightness := mean_road_brightness img
  { snow_coverage := py_round snow 3
    wet_coverage := py_round wet 3
    ice_coverage := py_round ice 3
    road_brightness := py_round brightness 1
    road_pixels := rp
    snow_pixels := sp
    wet_pixels := wp
    ice_pixels := ip
    surface_condition := classify_surface_condition snow wet ice brightness
    confidence := min (max snow (max wet ice) * 2) 1
    err := none }

/-- Zeroed result the except clause of analyze_road_surface returns. -/
def unknown_surface_result (e : String) : SurfaceResult :=
  { snow_coverage := 0
    wet_coverage := 0
    ice_coverage := 0
    road_brightness := 0
    road_pixels := 0
    snow_pixels := 0
    wet_pixels := 0
    ice_pixels := 0
    surface_condition := "unknown"
    confidence := 0
    err := some e }

/-- RoadSurfaceAnalyzer.analyze_road_surface with its try/except boundary.
The argument carries the outcome of the frame processing inside the try
block: ok with the decoded mask-annotated pixels, or error when any
processing step raised. The function is total, so no exception leaves
this boundary. -/
def analyze_road_surface (attempt : Except String (List MaskedPixel)) : SurfaceResult :=
  match attempt with
  | .ok img => analyze_road_surface_body img
  | .error e => unknown_surface_result e

/-! Road status derivation, from SnowAnalytics._determine_road_status. -/

/-- SnowAnalytics._determine_road_status, clause for clause, over the
values it reads from the road analysis dictionary and the weather
dictionary. -/
def determine_road_status (surface_condition : String)
    (snow_coverage ice_coverage wet_coverage temperature snow_depth : ℚ) : String :=
  if surface_condition = "snow_covered" ∨ snow_coverage > 0.7 then
    if snow_depth > 2.0 ∨ temperature < 28 then "Hazardous" else "Slippery"
  else if surface_condition = "partial_snow" ∨ snow_coverage > 0.3 then "Slippery"
  else if surface_condition = "icy" ∨ ice_coverage > 0.3 then "Icy - Hazardous"
  else if ice_coverage > 0.1 ∧ temperature < 32 then "Ice Possible"
  else if surface_condition = "wet" ∨ wet_coverage > 0.5 then
    if temperature < 35 then "Wet - Ice Risk" else "Wet"
  else if surface_condition = "damp" ∨ wet_coverage > 0.2 then "Damp"
  else if temperature < 32 ∧ wet_coverage > 0.1 then "Freezing Conditions"
  else if surface_condition = "clean_dry" ∨ (snow_coverage < 0.1 ∧ wet_coverage < 0.1) then "Clear"
  else "Clear"

/-- Road-status labels of the specification enum. -/
inductive RoadStatus
| hazardous
| slippery
| icyHazardous
| icePossible
| wetIceRisk
| wet
| damp
| freezing
| clear
deriving DecidableEq

/-- Modelled from the spec: the road-status precedence ladder of section
4.2 of the specification, evaluated in the written order with first match
winning. This definition follows the words of the spec; it is compared
against determine_road_status, which follows the source. -/
def spec_road_status (surface_condition : String)
    (snow_coverage ice_coverage wet_coverage temperature snow_depth : ℚ) : RoadStatus :=
  if surface_condition = "snow_covered" ∨ snow_coverage > 0.7 then
    if snow_depth > 2.0 ∨ temperature < 28 then .hazardous else .slippery
  else if surface_condition = "partial_snow" ∨ snow_coverage > 0.3 then .slippery
  else if surface_condition = "icy" ∨ ice_coverage > 0.3 then .icyHazardous
  else if ice_coverage > 0.1 ∧ temperature < 32 then .icePossible
  else if surface_condition = "wet" ∨ wet_coverage > 0.5 then
    if temperature < 35 then .wetIceRisk else .wet
  else if surface_condition = "damp" ∨ wet_coverage > 0.2 then .damp
  else if temperature < 32 ∧ wet_coverage > 0.1 then .freezing
  else .clear

/-- Rendering of the spec labels as the label strings the source returns. -/
def road_status_label : RoadStatus → String
| .hazardous => "Hazardous"
| .slippery => "Slippery"
| .icyHazardous => "Icy - Hazardous"
| .icePossible => "Ice Possible"
| .wetIceRisk => "Wet - Ice Risk"
| .wet => "Wet"
| .damp => "Damp"
| .freezing => "Freezing Conditions"
| .clear => "Clear"

/-! Capture loop, from ImageSequenceService._capture_loop. -/

/-- Outcome of one loop iteration attempt: a successful capture, a
CameraError, or any other exception. -/
inductive CaptureEvent
| success
| cameraError (e : String)
| otherError (e : String)

def max_consecutive_failures : ℕ := 5

/-- Failure streak and sleep chosen by one iteration of the loop. -/
structure IterationOutcome where
  consecutive_failures : ℕ
  sleep_seconds : ℚ
deriving DecidableEq

/-- One iteration of the capture loop as a transition on the failure
streak: success resets the streak and sleeps the dynamic capture
interval; a CameraError increments the streak and sleeps 300 seconds
when the incremented streak has reached max_consecutive_failures, 60
seconds otherwise; any other exception increments the streak and sleeps
30 seconds. -/
def capture_loop_step (consecutive_failures : ℕ) (capture_interval : ℚ) :
    CaptureEvent → IterationOutcome
| .success => ⟨0, capture_interval⟩
| .cameraError _ =>
    let failures := consecutive_failures + 1
    ⟨failures, if max_consecutive_failures ≤ failures then 300 else 60⟩
| .otherError _ => ⟨consecutive_failures + 1, 30⟩

/-- Methods defined on the SnowAnalytics class in
src/services/snow_analytics.py. -/
def snow_analytics_methods : List String :=
  ["__init__", "analyze_image", "_calculate_accumulation_rate",
   "_generate_predictions", "_determine_road_status",
   "_store_historical_data", "_save_historical_data",
   "get_analytics_summary"]

/-- Python attribute dispatch of the analytics call of the capture loop:
looking up analyze_raw_image on the SnowAnalytics instance raises
AttributeError when no such method exists. -/
def call_analyze_raw_image : Except String Unit :=
  if snow_analytics_methods.contains "analyze_raw_image" then .ok ()
  else .error "AttributeError"

/-- Observable outcome of the analytics-and-save section of one
successful capture iteration. -/
structure CaptureIteration where
  analytics_result : Option Unit
  image_saved : Bool
deriving DecidableEq

/-- Analytics-and-save section of the capture loop on a successful
capture: the analytics call sits in its own try/except whose failure
leaves analytics_result at None, and storage.save_image runs afterwards
either way. -/
def capture_iteration_success (analytics_enabled : Bool) : CaptureIteration :=
  let analytics_result :=
    if analytics_enabled then
      match call_analyze_raw_image with
      | .ok r => some r
      | .error _ => none
    else none
  { analytics_result := analytics_result, image_saved := true }

/-! Sequence update check, from ImageSequenceService._check_sequence_update
and ImageSequenceService.generate_sequence. Wall-clock instants are
seconds as rationals. -/

/-- Due test of _check_sequence_update: no previous update, or the
configured interval (minutes) elapsed since the previous one. -/
def sequence_update_due (last_sequence_update : Option ℚ)
    (now update_interval_minutes : ℚ) : Bool :=
  match last_sequence_update with
  | none => true
  | some t => decide (update_interval_minutes * 60 ≤ now - t)

/-- ImageSequenceService.generate_sequence: returns None when no recent
images exist, and its catch-all except clause turns any assembly failure
into None as well, so the caller always receives an Option. -/
def generate_sequence (recent_images : List (String × ℤ))
    (assembly : Except String String) : Option String :=
  if recent_images.isEmpty then none
  else
    match assembly with
    | .ok p => some p
    | .error _ => none

/-- Observable outcome of one _check_sequence_update call. -/
structure SequenceUpdateResult where
  invoked : Bool
  last_sequence_update : Option ℚ
  generated : Option String
deriving DecidableEq

/-- ImageSequenceService._check_sequence_update: when due, invoke
generate_sequence and then set last_sequence_update to now; the
timestamp assignment does not inspect the generation outcome. -/
def check_sequence_update (last : Option ℚ) (now update_interval_minutes : ℚ)
    (gen_outcome : Option String) : SequenceUpdateResult :=
  if sequence_update_due last now update_interval_minutes then
    { invoked := true, last_sequence_update := some now, generated := gen_outcome }
  else
    { invoked := false, last_sequence_update := last, generated := none }

/-! Storage, from StorageManager.get_recent_images. Wall-clock instants
are seconds as integers. -/

/-- Stored frame file: the timestamp parsed from its filename (none when
the filename does not parse) and its filesystem mtime. -/
structure StoredImage where
  filename_ts : Option ℤ
  mtime : ℤ
deriving DecidableEq

/-- StorageManager.get_recent_images: keep files whose mtime is at or
after the cutoff now minus the window, pair each with the timestamp
parsed from its filename (falling back to the mtime when parsing fails),
sort by that timestamp oldest first, and cap at max_images. -/
def get_recent_images (files : List StoredImage) (now minutes : ℤ)
    (max_images : ℕ) : List (StoredImage × ℤ) :=
  let cutoff := now - minutes * 60
  let images := (files.filter (fun f => decide (cutoff ≤ f.mtime))).map
    (fun f => (f, f.filename_ts.getD f.mtime))
  (List.insertionSort (fun a b => a.2 ≤ b.2) images).take max_images

instance : IsTotal (StoredImage × ℤ) (fun a b => a.2 ≤ b.2) :=
  ⟨fun a b => le_total a.2 b.2⟩

instance : IsTrans (StoredImage × ℤ) (fun a b => a.2 ≤ b.2) :=
  ⟨fun _ _ _ hab hbc => le_trans hab hbc⟩

/-! Sequence assembly, from ImageProcessor.create_image_sequence and
ImageProcessor.create_image_sequence_with_analytics. -/

/-- Encoded image bytes, kept opaque. -/
abbrev ImageBytes := String

/-- Failure modes of an assembly call: the ValueError raised on an empty
frame list, or an exception propagated out of per-frame processing. -/
inductive AssemblyError
| noImagesProvided
| frameError (e : String)
deriving DecidableEq

instance {ε α : Type} [DecidableEq ε] [DecidableEq α] : DecidableEq (Except ε α) := fun x y =>
  match x, y with
  | .ok a, .ok b =>
    if h : a = b then isTrue (congrArg Except.ok h)
    else isFalse (fun hh => h (Except.ok.inj hh))
  | .error a, .error b =>
    if h : a = b then isTrue (congrArg Except.error h)
    else isFalse (fun hh => h (Except.error.inj hh))
  | .ok _, .error _ => isFalse (fun hh => Except.noConfusion hh)
  | .error _, .ok _ => isFalse (fun hh => Except.noConfusion hh)

/-- Outcome of an assembly call: the files it wrote and its return value
or raised error. -/
structure AssemblyOutcome where
  written : List String
  result : Except AssemblyError String
deriving DecidableEq

/-- Per-frame processing of the assembly loop; the first frame whose
timestamp overlay raises aborts the whole call (the loop body has no
catch around add_timestamp_overlay). -/
def process_frames : List (Except String ImageBytes) → Except AssemblyError (List ImageBytes)
| [] => .ok []
| x :: xs =>
  match x with
  | .error e => .error (.frameError e)
  | .ok b =>
    match process_frames xs with
    | .error e => .error e
    | .ok bs => .ok (b :: bs)

/-- ImageProcessor.create_image_sequence_with_analytics: raises the
empty-input ValueError before touching the filesystem when the frame
list is empty; otherwise processes every frame and only then writes the
output file. Each list element carries the outcome of that frame's
overlay processing. -/
def create_image_sequence_with_analytics (images : List (Except String ImageBytes))
    (output_path : String) : AssemblyOutcome :=
  if images.isEmpty then ⟨[], .error .noImagesProvided⟩
  else
    match process_frames images with
    | .error e => ⟨[], .error e⟩
    | .ok _ => ⟨[output_path], .ok output_path⟩

/-- ImageProcessor.create_image_sequence, same empty-input guard and
write ordering as the analytics variant. -/
def create_image_sequence (images : List (Except String ImageBytes))
    (output_path : String) : AssemblyOutcome :=
  if images.isEmpty then ⟨[], .error .noImagesProvided⟩
  else
    match process_frames images with
    | .error e => ⟨[], .error e⟩
    | .ok _ => ⟨[output_path], .ok output_path⟩

/-! Overlay renderers, from ImageProcessor.add_timestamp_overlay and
AnalyticsOverlay.create_analytics_overlay / create_minimal_overlay. Each
function takes the outcome of its rendering body as an Except argument
together with the original frame. -/

/-- ImageProcessor.add_timestamp_overlay: its except clause logs and then
re-raises, so a rendering failure propagates to the caller. -/
def add_timestamp_overlay (rendered : Except String ImageBytes)
    (image_data : ImageBytes) : Except String ImageBytes :=
  match rendered with
  | .ok b => .ok b
  | .error e => .error e

/-- AnalyticsOverlay.create_analytics_overlay: its except clause returns
the original image. -/
def create_analytics_overlay (rendered : Except String ImageBytes)
    (image : ImageBytes) : ImageBytes :=
  match rendered with
  | .ok b => b
  | .error _ => image

/-- AnalyticsOverlay.create_minimal_overlay: its except clause returns
the original image. -/
def create_minimal_overlay (rendered : Except String ImageBytes)
    (image : ImageBytes) : ImageBytes :=
  match rendered with
  | .ok b => b
  | .error _ => image

/-! Configuration manager, from ConfigManager.update_config and
ConfigManager._validate_updates. Python values and dictionaries are
modelled explicitly; a dictionary is its ordered key/value list. -/

inductive PyVal
| pybool (b : Bool)
| pyint (n : ℤ)
| pyfloat (q : ℚ)
| pystr (s : String)
| pylist (xs : List PyVal)
| pydict (entries : List (String × PyVal))
| pynone

abbrev PyDict := List (String × PyVal)

/-- Key membership test, as the Python expression (k in d) on a dict. -/
def dict_contains (d : PyDict) (k : String) : Bool :=
  d.any (fun e => e.1 = k)

def dict_lookup (d : PyDict) (k : String) : Option PyVal :=
  (d.find? (fun e => e.1 = k)).map (fun e => e.2)

/-- Models d[k] = v: replace in place when the key exists, append
otherwise. -/
def dict_set (d : PyDict) (k : String) (v : PyVal) : PyDict :=
  if d.any (fun e => e.1 = k) then
    d.map (fun e => if e.1 = k then (k, v) else e)
  else d ++ [(k, v)]

/-- Models d.update(u): set every key of u in order. -/
def dict_update (d : PyDict) (u : PyDict) : PyDict :=
  u.foldl (fun acc e => dict_set acc e.1 e.2) d

/-- isinstance(x, bool). -/
def is_py_bool : PyVal → Bool
| .pybool _ => true
| _ => false

/-- isinstance(x, int); Python bool is a subclass of int. -/
def is_py_int : PyVal → Bool
| .pyint _ => true
| .pybool _ => true
| _ => false

/-- isinstance(x, (int, float)). -/
def is_py_number : PyVal → Bool
| .pyint _ => true
| .pyfloat _ => true
| .pybool _ => true
| _ => false

/-- Numeric value of an int, float or bool. -/
def py_num : PyVal → ℚ
| .pyint n => (n : ℚ)
| .pyfloat q => q
| .pybool b => if b then 1 else 0
| _ => 0

/-- Rendering of a value inside an error message; stands in for the
Python str() formatting, whose exact text the claims do not depend on. -/
def py_repr : PyVal → String
| .pybool b => if b then "True" else "False"
| .pyint n => toString n
| .pyfloat q => toString q
| .pystr s => s
| .pylist _ => "list"
| .pydict _ => "dict"
| .pynone => "None"

/-- Validation of one road_roi_points entry: a two-element list of
numbers in the unit interval. -/
def is_roi_point : PyVal → Bool
| .pylist ps =>
    decide (ps.length = 2) &&
    ps.all (fun c => is_py_number c && decide (0 ≤ py_num c) && decide (py_num c ≤ 1))
| _ => false

/-- Validation table of _validate_updates: some check for a known key,
none for an unknown one. -/
def validate_field (key : String) (x : PyVal) : Option Bool :=
  if key = "analytics_enabled" then some (is_py_bool x)
  else if key = "analytics_update_interval_minutes" then
    some (is_py_int x && decide (1 ≤ py_num x) && decide (py_num x ≤ 60))
  else if key = "weather_api_enabled" then some (is_py_bool x)
  else if key = "weather_latitude" then
    some (is_py_number x && decide (-90 ≤ py_num x) && decide (py_num x ≤ 90))
  else if key = "weather_longitude" then
    some (is_py_number x && decide (-180 ≤ py_num x) && decide (py_num x ≤ 180))
  else if key = "weather_location_name" then
    some (match x with
      | .pystr s => decide (s.trim.length > 0)
      | _ => false)
  else if key = "analytics_overlay_enabled" then some (is_py_bool x)
  else if key = "analytics_overlay_style" then
    some (match x with
      | .pystr s => ["full", "minimal", "mobile", "none"].contains s
      | _ => false)
  else if key = "snow_detection_threshold" then
    some (is_py_number x && decide (0 ≤ py_num x) && decide (py_num x ≤ 1))
  else if key = "ice_warning_temperature" then
    some (is_py_number x && decide (-50 ≤ py_num x) && decide (py_num x ≤ 100))
  else if key = "hazardous_snow_depth" then
    some (is_py_number x && decide (0 ≤ py_num x) && decide (py_num x ≤ 50))
  else if key = "sequence_update_interval_minutes" then
    some (is_py_int x && decide (1 ≤ py_num x) && decide (py_num x ≤ 60))
  else if key = "max_images_per_sequence" then
    some (is_py_int x && decide (1 ≤ py_num x) && decide (py_num x ≤ 30))
  else if key = "gif_frame_duration_seconds" then
    some (is_py_number x && decide ((1 : ℚ)/10 ≤ py_num x) && decide (py_num x ≤ 5))
  else if key = "gif_optimization_level" then
    some (match x with
      | .pystr s => ["low", "balanced", "aggressive"].contains s
      | _ => false)
  else if key = "road_roi_points" then
    some (match x with
      | .pylist ps => ps.all is_roi_point
      | _ => false)
  else if key = "road_roi_enabled" then some (is_py_bool x)
  else none

/-- ConfigManager._validate_updates: walk the update entries in order,
collecting validated entries and error messages; when any error message
exists, its return value is the error dictionary with keys status,
message and errors, otherwise the validated dictionary. -/
def validate_updates (updates : PyDict) : PyDict :=
  let step := updates.foldl
    (fun (acc : PyDict × List String) e =>
      match validate_field e.1 e.2 with
      | some true => (dict_set acc.1 e.1 e.2, acc.2)
      | some false =>
          (acc.1, acc.2 ++ ["Invalid value for " ++ e.1 ++ ": " ++ py_repr e.2])
      | none => (acc.1, acc.2 ++ ["Unknown configuration key: " ++ e.1]))
    ([], [])
  if step.2.isEmpty then step.1
  else
    [("status", .pystr "error"), ("message", .pystr "Validation failed"),
     ("errors", .pylist (step.2.map PyVal.pystr))]

/-- ConfigManager._save_config: sets last_updated on the in-memory
dictionary before attempting the file write, whose success enters as
write_ok. -/
def save_config (config : PyDict) (now_iso : String) (write_ok : Bool) :
    PyDict × Bool :=
  (dict_set config "last_updated" (.pystr now_iso), write_ok)

/-- Return value and resulting stored state of one update_config call. -/
structure UpdateConfigOutcome where
  result : PyDict
  current_config : PyDict

/-- ConfigManager.update_config: validate, test the validation result
for the key named error, and otherwise merge it into current_config and
save. The membership test is on the literal key string error, exactly as
the source writes it. -/
def update_config (current_config : PyDict) (updates : PyDict)
    (now_iso : String) (write_ok : Bool) : UpdateConfigOutcome :=
  let validated := validate_updates updates
  if dict_contains validated "error" then
    { result := validated, current_config := current_config }
  else
    let saved := save_config (dict_update current_config validated) now_iso write_ok
    if saved.2 then
      { result := [("status", .pystr "success"),
                   ("message", .pystr "Configuration updated successfully"),
                   ("config", .pydict saved.1)],
        current_config := saved.1 }
    else
      { result := [("status", .pystr "error"),
                   ("message", .pystr "Failed to save configuration")],
        current_config := saved.1 }

/-- Default configuration of ConfigManager.__init__. -/
def default_config : PyDict :=
  [("analytics_enabled", .pybool true),
   ("analytics_update_interval_minutes", .pyint 5),
   ("weather_api_enabled", .pybool true),
   ("weather_latitude", .pyfloat 40.011771),
   ("weather_longitude", .pyfloat (-111.648)),
   ("weather_location_name", .pystr "Woodland Hills City, Utah"),
   ("analytics_overlay_enabled", .pybool true),
   ("analytics_overlay_style", .pystr "minimal"),
   ("snow_detection_threshold", .pyfloat 0.7),
   ("ice_warning_temperature", .pyint 32),
   ("hazardous_snow_depth", .pyfloat 2.0),
   ("sequence_update_interval_minutes", .pyint 5),
   ("max_images_per_sequence", .pyint 10),
   ("gif_frame_duration_seconds", .pyfloat 1.0),
   ("gif_optimization_level", .pystr "balanced"),
   ("road_roi_points", .pylist []),
   ("road_roi_enabled", .pybool false),
   ("last_updated", .pynone)]

/-! Helper lemmas. -/

theorem in_range_snow_zero : in_range lower_snow upper_snow (0, 0, 0) = false := by
  decide

theorem in_range_wet_zero : in_range lower_wet upper_wet (0, 0, 0) = false := by
  decide

theorem in_range_ice_zero : in_range lower_ice upper_ice (0, 0, 0) = false := by
  decide

theorem count_in_range_le_road_pixels (lo hi : ℕ × ℕ × ℕ)
    (h0 : in_range lo hi (0, 0, 0) = false) (img : List MaskedPixel) :
    count_in_range lo hi img ≤ road_pixels img := by
  induction img with
  | nil => simp [count_in_range, road_pixels]
  | cons p t ih =>
    by_cases hr : p.road
    · simp only [count_in_range, road_pixels, List.filter_cons, hr, if_true] at *
      split_ifs <;> simp_all <;> omega
    · have hm : masked_hsv p = (0, 0, 0) := by simp [masked_hsv, hr]
      simp only [count_in_range, road_pixels, List.filter_cons, hr, hm, h0] at *
      simpa using ih

theorem coverage_nonneg (k n : ℕ) : 0 ≤ coverage k n := by
  unfold coverage
  split_ifs
  · positivity
  · exact le_refl 0

theorem coverage_le_one (k n : ℕ) (h : k ≤ n) : coverage k n ≤ 1 := by
  unfold coverage
  split_ifs with hn
  · rw [div_le_one (by exact_mod_cast hn)]
    exact_mod_cast h
  · norm_num

theorem py_round_nonneg (x : ℚ) (n : ℕ) (h : 0 ≤ x) : 0 ≤ py_round x n := by
  unfold py_round
  apply div_nonneg _ (by positivity)
  have hx : (0 : ℚ) ≤ x * 10 ^ n := mul_nonneg h (by positivity)
  have hr : (0 : ℤ) ≤ round (x * 10 ^ n) := by
    rw [round_eq]
    apply Int.floor_nonneg.mpr
    linarith
  exact_mod_cast hr

theorem py_round_le_one (x : ℚ) (n : ℕ) (h : x ≤ 1) : py_round x n ≤ 1 := by
  unfold py_round
  rw [div_le_one (by positivity)]
  have hx : x * 10 ^ n ≤ 10 ^ n := by
    have := mul_le_mul_of_nonneg_right h (show (0 : ℚ) ≤ 10 ^ n by positivity)
    simpa using this
  have h2 : x * 10 ^ n + 1 / 2 < (((10 ^ n + 1 : ℤ)) : ℚ) := by
    push_cast
    linarith
  have h3 : round (x * 10 ^ n) ≤ 10 ^ n := by
    rw [round_eq]
    have := Int.floor_lt.mpr h2
    omega
  exact_mod_cast h3

theorem py_round_zero (n : ℕ) : py_round 0 n = 0 := by
  simp [py_round]

/-! Claim theorems. -/

/-- C1: for every input, the road-status label returned by
SnowAnalytics._determine_road_status equals the result of the precedence
ladder of the specification evaluated in the written order, first match
winning; as an equation between two total functions this also states
that the label is a pure, deterministic function of its inputs. -/
theorem road_status_matches_spec_ladder (surface_condition : String)
    (snow_coverage ice_coverage wet_coverage temperature snow_depth : ℚ) :
    determine_road_status surface_condition snow_coverage ice_coverage wet_coverage
        temperature snow_depth =
      road_status_label (spec_road_status surface_condition snow_coverage ice_coverage
        wet_coverage temperature snow_depth) := by
  unfold determine_road_status spec_road_status
  split_ifs <;> rfl

/-- C2: when any processing exception occurs inside the surface analysis,
RoadSurfaceAnalyzer.analyze_road_surface returns the zeroed result with
surface condition unknown and confidence 0; the function is total, so no
exception crosses the analysis boundary to the caller. -/
theorem analyze_road_surface_absorbs_failure (e : String) :
    analyze_road_surface (Except.error e) = unknown_surface_result e ∧
    (analyze_road_surface (Except.error e)).snow_coverage = 0 ∧
    (analyze_road_surface (Except.error e)).wet_coverage = 0 ∧
    (analyze_road_surface (Except.error e)).ice_coverage = 0 ∧
    (analyze_road_surface (Except.error e)).confidence = 0 ∧
    (analyze_road_surface (Except.error e)).surface_condition = "unknown" :=
  ⟨rfl, rfl, rfl, rfl, rfl, rfl⟩

/-- C3: in the capture loop, a CameraError increments the consecutive
failure streak and a success resets it to zero; after a CameraError the
sleep is 300 seconds exactly when the incremented streak has reached 5,
and 60 seconds (never 300) when it is below 5. -/
theorem capture_loop_backoff_policy (n : ℕ) (capture_interval : ℚ) (e : String) :
    (capture_loop_step n capture_interval (.cameraError e)).consecutive_failures = n + 1 ∧
    (capture_loop_step n capture_interval .success).consecutive_failures = 0 ∧
    (5 ≤ n + 1 → (capture_loop_step n capture_interval (.cameraError e)).sleep_seconds = 300) ∧
    (n + 1 < 5 → (capture_loop_step n capture_interval (.cameraError e)).sleep_seconds = 60) ∧
    (n + 1 < 5 → (capture_loop_step n capture_interval (.cameraError e)).sleep_seconds ≠ 300) := by
  refine ⟨rfl, rfl, fun h => ?_, fun h => ?_, fun h => ?_⟩
  · simp [capture_loop_step, max_consecutive_failures, h]
  · simp [capture_loop_step, max_consecutive_failures, Nat.not_le.mpr h]
  · simp only [capture_loop_step, max_consecutive_failures, Nat.not_le.mpr h, if_false]
    norm_num

/-- Witness for C3 at concrete streaks: the fifth consecutive CameraError
selects the 300 second backoff, the first selects the 60 second one. -/
theorem capture_loop_backoff_policy_witness :
    (capture_loop_step 4 30 (.cameraError "timeout")).sleep_seconds = 300 ∧
    (capture_loop_step 0 30 (.cameraError "timeout")).sleep_seconds = 60 ∧
    (capture_loop_step 0 30 (.cameraError "timeout")).sleep_seconds ≠ 300 :=
  ⟨(capture_loop_backoff_policy 4 30 "timeout").2.2.1 (by norm_num),
   (capture_loop_backoff_policy 0 30 "timeout").2.2.2.1 (by norm_num),
   (capture_loop_backoff_policy 0 30 "timeout").2.2.2.2 (by norm_num)⟩

/-- C5: the coverage fractions returned by the surface analysis lie in
the unit interval, the confidence equals min of twice the largest
coverage fraction and one (hence lies in the unit interval), and a road
mask with zero pixels yields zero for every coverage fraction and for
the confidence, the division being guarded. -/
theorem analyze_road_surface_bounds (img : List MaskedPixel) :
    (0 ≤ (analyze_road_surface_body img).snow_coverage ∧
      (analyze_road_surface_body img).snow_coverage ≤ 1) ∧
    (0 ≤ (analyze_road_surface_body img).wet_coverage ∧
      (analyze_road_surface_body img).wet_coverage ≤ 1) ∧
    (0 ≤ (analyze_road_surface_body img).ice_coverage ∧
      (analyze_road_surface_body img).ice_coverage ≤ 1) ∧
    (analyze_road_surface_body img).confidence =
      min (max (coverage (count_in_range lower_snow upper_snow img) (road_pixels img))
        (max (coverage (count_in_range lower_wet upper_wet img) (road_pixels img))
          (coverage (count_in_range lower_ice upper_ice img) (road_pixels img))) * 2) 1 ∧
    (0 ≤ (analyze_road_surface_body img).confidence ∧
      (analyze_road_surface_body img).confidence ≤ 1) ∧
    (road_pixels img = 0 →
      (analyze_road_surface_body img).snow_coverage = 0 ∧
      (analyze_road_surface_body img).wet_coverage = 0 ∧
      (analyze_road_surface_body img).ice_coverage = 0 ∧
      (analyze_road_surface_body img).confidence = 0) := by
  have hs : (analyze_road_surface_body img).snow_coverage =
      py_round (coverage (count_in_range lower_snow upper_snow img) (road_pixels img)) 3 := rfl
  have hw : (analyze_road_surface_body img).wet_coverage =
      py_round (coverage (count_in_range lower_wet upper_wet img) (road_pixels img)) 3 := rfl
  have hi : (analyze_road_surface_body img).ice_coverage =
      py_round (coverage (count_in_range lower_ice upper_ice img) (road_pixels img)) 3 := rfl
  have hc : (analyze_road_surface_body img).confidence =
      min (max (coverage (count_in_range lower_snow upper_snow img) (road_pixels img))
        (max (coverage (count_in_range lower_wet upper_wet img) (road_pixels img))
          (coverage (count_in_range lower_ice upper_ice img) (road_pixels img))) * 2) 1 := rfl
  refine ⟨⟨?_, ?_⟩, ⟨?_, ?_⟩, ⟨?_, ?_⟩, hc, ⟨?_, ?_⟩, fun hz => ?_⟩
  · exact hs ▸ py_round_nonneg _ 3 (coverage_nonneg _ _)
  · exact hs ▸ py_round_le_one _ 3
      (coverage_le_one _ _ (count_in_range_le_road_pixels _ _ in_range_snow_zero img))
  · exact hw ▸ py_round_nonneg _ 3 (coverage_nonneg _ _)
  · exact hw ▸ py_round_le_one _ 3
      (coverage_le_one _ _ (count_in_range_le_road_pixels _ _ in_range_wet_zero img))
  · exact hi ▸ py_round_nonneg _ 3 (coverage_nonneg _ _)
  · exact hi ▸ py_round_le_one _ 3
      (coverage_le_one _ _ (count_in_range_le_road_pixels _ _ in_range_ice_zero img))
  · rw [hc]
    apply le_min _ zero_le_one
    have := coverage_nonneg (count_in_range lower_snow upper_snow img) (road_pixels img)
    have h2 := le_max_left (coverage (count_in_range lower_snow upper_snow img) (road_pixels img))
      (max (coverage (count_in_range lower_wet upper_wet img) (road_pixels img))
        (coverage (count_in_range lower_ice upper_ice img) (road_pixels img)))
    nlinarith
  · rw [hc]
    exact min_le_right _ _
  · rw [hs, hw, hi, hc, hz]
    simp [coverage, py_round_zero]

/-- Witness for C5 at the empty frame, whose road mask has zero pixels:
every coverage fraction and the confidence evaluate to zero. -/
theorem analyze_road_surface_bounds_witness :
    (analyze_road_surface_body []).snow_coverage = 0 ∧
    (analyze_road_surface_body []).wet_coverage = 0 ∧
    (analyze_road_surface_body []).ice_coverage = 0 ∧
    (analyze_road_surface_body []).confidence = 0 :=
  (analyze_road_surface_bounds []).2.2.2.2.2 rfl

/-- C4: ConfigManager._validate_updates flags the out-of-range field
snow_detection_threshold = 1.5 and returns the error dictionary, but
update_config tests that dictionary for the key named error while its
keys are status, message and errors, so the test fails: the error
dictionary is merged into the stored configuration (which afterwards
carries status, message and errors entries) and the call reports
success. This contradicts the all-or-nothing rejection the validation
machinery itself implements. -/
theorem update_config_invalid_field_bug :
    dict_lookup (validate_updates [("snow_detection_threshold", PyVal.pyfloat (mkRat 3 2))]) "errors" =
      some (.pylist [.pystr ("Invalid value for " ++ "snow_detection_threshold" ++ ": " ++
        py_repr (PyVal.pyfloat (mkRat 3 2)))]) ∧
    dict_contains (validate_updates [("snow_detection_threshold", PyVal.pyfloat (mkRat 3 2))]) "error" =
      false ∧
    dict_lookup (update_config default_config
        [("snow_detection_threshold", PyVal.pyfloat (mkRat 3 2))] "2026-01-01T00:00:00" true).result
        "status" = some (.pystr "success") ∧
    dict_lookup (update_config default_config
        [("snow_detection_threshold", PyVal.pyfloat (mkRat 3 2))] "2026-01-01T00:00:00" true).current_config
        "status" = some (.pystr "error") ∧
    (dict_lookup (update_config default_config
        [("snow_detection_threshold", PyVal.pyfloat (mkRat 3 2))] "2026-01-01T00:00:00" true).current_config
        "errors").isSome = true :=
  ⟨rfl, rfl, rfl, rfl, rfl⟩

/-- C6 (amended): the recent-image query returns at most max_images
entries, ordered oldest first by the returned timestamps, and every
returned entry has its file mtime inside the window; the returned
timestamp itself is parsed from the filename and can lie outside the
window. -/
theorem get_recent_images_amended (files : List StoredImage) (now minutes : ℤ)
    (max_images : ℕ) :
    (get_recent_images files now minutes max_images).length ≤ max_images ∧
    ((get_recent_images files now minutes max_images).map Prod.snd).Pairwise (· ≤ ·) ∧
    (∀ x ∈ get_recent_images files now minutes max_images,
      now - minutes * 60 ≤ x.1.mtime) := by
  refine ⟨?_, ?_, ?_⟩
  · simp [get_recent_images, List.length_take]
  · rw [List.pairwise_map]
    have hs : List.Pairwise (fun a b : StoredImage × ℤ => a.2 ≤ b.2)
        (List.insertionSort (fun a b => a.2 ≤ b.2)
          ((files.filter (fun f => decide (now - minutes * 60 ≤ f.mtime))).map
            (fun f => (f, f.filename_ts.getD f.mtime)))) :=
      List.sorted_insertionSort _ _
    exact hs.sublist (List.take_sublist _ _)
  · intro x hx
    have hx2 : x ∈ List.insertionSort (fun a b : StoredImage × ℤ => a.2 ≤ b.2)
        ((files.filter (fun f => decide (now - minutes * 60 ≤ f.mtime))).map
          (fun f => (f, f.filename_ts.getD f.mtime))) :=
      List.mem_of_mem_take hx
    have hx3 := (List.perm_insertionSort
      (fun a b : StoredImage × ℤ => a.2 ≤ b.2) _).mem_iff.mp hx2
    obtain ⟨f, hf, hfx⟩ := List.mem_map.mp hx3
    have hcut := List.of_mem_filter hf
    rw [← hfx]
    simpa using hcut

/-- Witness for C6 at one file whose filename timestamp matches its
matching mtime: the singleton query result is returned and its mtime
lies inside the window. -/
theorem get_recent_images_amended_witness :
    StoredImage.mk (some 100) 100 ∈ [(StoredImage.mk (some 100) 100, (100 : ℤ))].map Prod.fst ∧
    (100 : ℤ) - 5 * 60 ≤ (StoredImage.mk (some 100) 100).mtime :=
  ⟨by decide,
   (get_recent_images_amended [StoredImage.mk (some 100) 100] 100 5 10).2.2
     (StoredImage.mk (some 100) 100, (100 : ℤ)) (by decide)⟩

/-- Counterexample for C6 as stated: a file touched at call time whose
filename encodes an ancient timestamp passes the mtime window filter,
and the query returns it with timestamp 0, far outside the five-minute
window preceding the call at time 10000. -/
theorem get_recent_images_timestamp_outside_window :
    get_recent_images [StoredImage.mk (some 0) 10000] 10000 5 10 =
      [(StoredImage.mk (some 0) 10000, 0)] ∧
    ¬((10000 : ℤ) - 5 * 60 ≤ 0) := by
  constructor
  · rfl
  · decide

theorem process_frames_error_is_frame_error (images : List (Except String ImageBytes))
    (err : AssemblyError) (hp : process_frames images = Except.error err) :
    ∃ e, err = AssemblyError.frameError e := by
  induction images with
  | nil => simp [process_frames] at hp
  | cons x xs ih =>
    cases x with
    | error e =>
      simp [process_frames] at hp
      exact ⟨e, hp.symm⟩
    | ok b =>
      simp only [process_frames] at hp
      cases hx : process_frames xs with
      | error e2 =>
        rw [hx] at hp
        simp only [Except.error.injEq] at hp
        subst hp
        exact ih hx
      | ok bs =>
        rw [hx] at hp
        simp at hp

/-- C7: both assembly entry points fail with the empty-input error and
write no file when called with an empty frame list, and on every
non-empty frame list the empty-input error is not raised. -/
theorem assembler_empty_input (images : List (Except String ImageBytes)) (p : String) :
    (create_image_sequence_with_analytics [] p =
      ⟨[], .error .noImagesProvided⟩) ∧
    (create_image_sequence [] p = ⟨[], .error .noImagesProvided⟩) ∧
    (images ≠ [] →
      (create_image_sequence_with_analytics images p).result ≠
        .error .noImagesProvided) ∧
    (images ≠ [] →
      (create_image_sequence images p).result ≠ .error .noImagesProvided) := by
  refine ⟨rfl, rfl, fun h => ?_, fun h => ?_⟩
  · rw [create_image_sequence_with_analytics, if_neg (by simpa using h)]
    cases hp : process_frames images with
    | error err =>
      obtain ⟨e, he⟩ := process_frames_error_is_frame_error images err hp
      simp [he]
    | ok bs => simp
  · rw [create_image_sequence, if_neg (by simpa using h)]
    cases hp : process_frames images with
    | error err =>
      obtain ⟨e, he⟩ := process_frames_error_is_frame_error images err hp
      simp [he]
    | ok bs => simp

/-- Witness for C7: the empty call errors without writing, and a
one-frame call does not raise the empty-input error. -/
theorem assembler_empty_input_witness :
    (create_image_sequence_with_analytics [] "out.gif" =
      ⟨[], .error .noImagesProvided⟩) ∧
    (create_image_sequence_with_analytics [Except.ok "frame"] "out.gif").result ≠
      Except.error AssemblyError.noImagesProvided :=
  ⟨(assembler_empty_input [] "out.gif").1,
   (assembler_empty_input [Except.ok "frame"] "out.gif").2.2.1 (by simp)⟩

/-- Counterexample for C8 as stated: a rendering failure inside
ImageProcessor.add_timestamp_overlay propagates as an error to the
caller instead of returning the original frame bytes. -/
theorem timestamp_overlay_propagates_failure :
    add_timestamp_overlay (Except.error "render failure") "originalframe" =
      Except.error "render failure" ∧
    add_timestamp_overlay (Except.error "render failure") "originalframe" ≠
      Except.ok "originalframe" := by
  constructor
  · rfl
  · simp [add_timestamp_overlay]

/-- C8 (amended): a rendering failure inside the analytics overlay (both
the full panel and the minimal bar) returns the original unmodified
frame, while a rendering failure inside the timestamp overlay re-raises
to its caller. -/
theorem overlay_failure_policy (e : String) (original : ImageBytes) :
    create_analytics_overlay (Except.error e) original = original ∧
    create_minimal_overlay (Except.error e) original = original ∧
    add_timestamp_overlay (Except.error e) original = Except.error e :=
  ⟨rfl, rfl, rfl⟩

/-- C9: whenever the sequence-update check finds the interval elapsed or
no previous update, it invokes generation and records now as the new
last-update timestamp for every generation outcome, including the
failure outcome none. -/
theorem check_sequence_update_records_timestamp (last : Option ℚ)
    (now update_interval_minutes : ℚ) (gen_outcome : Option String)
    (hdue : sequence_update_due last now update_interval_minutes = true) :
    (check_sequence_update last now update_interval_minutes gen_outcome).invoked = true ∧
    (check_sequence_update last now update_interval_minutes gen_outcome).last_sequence_update =
      some now := by
  simp [check_sequence_update, hdue]

/-- Witness for C9 at a failed generation: no recent images exist, so
generate_sequence returns none, and the check still records the new
timestamp. -/
theorem check_sequence_update_records_timestamp_witness :
    generate_sequence [] (Except.error "assembly failed") = none ∧
    (check_sequence_update none 0 5
      (generate_sequence [] (Except.error "assembly failed"))).last_sequence_update = some 0 :=
  ⟨rfl,
   (check_sequence_update_records_timestamp none 0 5
     (generate_sequence [] (Except.error "assembly failed")) rfl).2⟩

/-- C10: the SnowAnalytics class defines no method named
analyze_raw_image, so the analytics step of the capture loop fails with
AttributeError on every iteration with analytics enabled; the failure is
absorbed by the inner try, the analytics result stays none, and the
frame is still saved. -/
theorem capture_loop_missing_analytics_method :
    snow_analytics_methods.contains "analyze_raw_image" = false ∧
    call_analyze_raw_image = Except.error "AttributeError" ∧
    (capture_iteration_success true).analytics_result = none ∧
    (capture_iteration_success true).image_saved = true :=
  ⟨rfl, rfl, rfl, rfl⟩
